import Mathlib

/-
Shallow embedding of the lightvis repository (itsuhane/lightvis) for
specification checking.  The embedding follows the source files
`source/lightvis/lightvis.cpp` (the version with viewport/camera state,
given as src/unnamed/part_001) and `include/lightvis/shader.h`
(src/unnamed/part_000).  C++ float/double arithmetic is idealised as exact
field arithmetic (ℚ where the claims are algebraic and executable, ℝ where
trigonometric or logarithmic functions occur); GLFW, OpenGL and nuklear are
modelled as oracles/abstract state, and process termination via `exit(0)`
is modelled as `Except.error` carrying the diagnostic printed by `puts`.
-/

namespace lightvis

/-! ### Viewport and camera state (`viewport_t`, part_001 lines 54-61) -/

/-- Embedding of `viewport_t`: window and framebuffer sizes (ints), the
yaw-pitch-roll angles in degrees, the viewing distance, the world offset and
the scale, with the member initialisers of the C++ struct as defaults. -/
structure Viewport where
  window_size : ℤ × ℤ := (0, 0)
  framebuffer_size : ℤ × ℤ := (0, 0)
  viewport_ypr : ℚ × ℚ × ℚ := (-45, -42, 0)
  viewport_distance : ℚ := 15
  world_xyz : ℚ × ℚ × ℚ := (0, 0, 0)
  scale : ℚ := 1
deriving DecidableEq

/-- A default-constructed `viewport_t` (all member initialisers). -/
def viewport_init : Viewport := {}

/-! ### Mouse states and events (`MouseStates`, `events_t`) -/

/-- Embedding of `MouseStates` from lightvis.h (positions as exact numbers). -/
structure MouseStatesQ where
  mouse_left : Bool := false
  mouse_middle : Bool := false
  mouse_right : Bool := false
  mouse_double_click : Bool := false
  control_left : Bool := false
  control_right : Bool := false
  shift_left : Bool := false
  shift_right : Bool := false
  mouse_normal_position : ℚ × ℚ := (0, 0)
  mouse_drag_position : ℚ × ℚ := (0, 0)
  scroll : ℚ × ℚ := (0, 0)
deriving DecidableEq

/-- Embedding of `events_t` (part_001 lines 63-69). -/
structure EventsSt where
  characters : List Nat := []
  scroll_offset : ℚ × ℚ := (0, 0)
  double_click : Bool := false
  double_click_position : ℤ × ℤ := (0, 0)
  last_left_click_time : ℚ := 0
deriving DecidableEq

/-! ### Position records and the add_points / add_trajectory API
(part_001 lines 71-76 and 464-498).  The caller-owned vectors the C++ code
stores raw pointers to are modelled as opaque handles (Nat); a null pointer
is `none`. -/

/-- Embedding of `position_record_t`. -/
structure PositionRecord where
  is_trajectory : Bool
  data : Nat
  color : Option Nat
  colors : Option Nat
deriving DecidableEq

/-- The per-object state of `LightVisDetail` that the public API touches
(title, window handle of `context_t`, viewport, events, mouse states,
position records).  GL handles inside `context_t` are abstracted away; the
window pointer is kept because claims refer to it. -/
structure VisDetail where
  title : String := ""
  context_window : Option Nat := none
  viewport : Viewport := {}
  events : EventsSt := {}
  mouse_states : MouseStatesQ := {}
  position_records : List PositionRecord := []
deriving DecidableEq

/-- `LightVis::add_points(points, color)` (part_001 lines 464-471). -/
def add_points_single_color (d : VisDetail) (points color : Nat) : VisDetail :=
  { d with position_records :=
      d.position_records ++ [⟨false, points, some color, none⟩] }

/-- `LightVis::add_points(points, colors)` (part_001 lines 473-480). -/
def add_points_multi_colors (d : VisDetail) (points colors : Nat) : VisDetail :=
  { d with position_records :=
      d.position_records ++ [⟨false, points, none, some colors⟩] }

/-- `LightVis::add_trajectory(positions, color)` (part_001 lines 482-489). -/
def add_trajectory_single_color (d : VisDetail) (positions color : Nat) : VisDetail :=
  { d with position_records :=
      d.position_records ++ [⟨true, positions, some color, none⟩] }

/-- `LightVis::add_trajectory(positions, colors)` (part_001 lines 491-498). -/
def add_trajectory_multi_colors (d : VisDetail) (positions colors : Nat) : VisDetail :=
  { d with position_records :=
      d.position_records ++ [⟨true, positions, none, some colors⟩] }

/-! ### process_events: the viewport-updating tail (part_001 lines 587-612)

The nuklear input-forwarding part of `process_events` only mirrors GLFW
state into nuklear; the part relevant to the claims is the block executed
when `!nk_item_is_any_active` holds: it fills `mouse_states`, calls the
subclass `mouse` handler, and, when that returns false, updates the static
`last_ypr`, the yaw/pitch angles and the clamped scale.  GLFW queries and
the subclass handler result are inputs. -/

/-- Inputs to one `process_events` call: whether any nuklear item is active,
the value the subclass `mouse(states)` override returns, the polled mouse
buttons, cursor position and accumulated scroll offset. -/
structure PEInput where
  item_active : Bool
  mouse_handled : Bool
  mouse_left : Bool
  mouse_middle : Bool
  mouse_right : Bool
  cursor : ℚ × ℚ
  scroll_offset : ℚ × ℚ
deriving DecidableEq

/-- `std::clamp(v, lo, hi)`: `v < lo ? lo : (hi < v ? hi : v)`. -/
def clampQ (v lo hi : ℚ) : ℚ :=
  if v < lo then lo else if hi < v then hi else v

/-- The state-updating tail of `LightVis::process_events` (part_001 lines
587-612): takes the inputs, the persistent `mouse_states` member, the
function-static `last_ypr` and the viewport, and returns the updated
viewport, mouse states and `last_ypr`. -/
def process_events_view (inp : PEInput) (ms : MouseStatesQ)
    (lastYpr : ℚ × ℚ × ℚ) (vp : Viewport) :
    Viewport × MouseStatesQ × (ℚ × ℚ × ℚ) :=
  if inp.item_active then (vp, ms, lastYpr)
  else
    let anyButton := inp.mouse_left || inp.mouse_middle || inp.mouse_right
    let ms' : MouseStatesQ :=
      { ms with
        mouse_left := inp.mouse_left
        mouse_middle := inp.mouse_middle
        mouse_right := inp.mouse_right
        scroll := inp.scroll_offset
        mouse_normal_position :=
          if !anyButton then inp.cursor else ms.mouse_normal_position
        mouse_drag_position := inp.cursor }
    if inp.mouse_handled then (vp, ms', lastYpr)
    else
      let lastYpr' := if !anyButton then vp.viewport_ypr else lastYpr
      let drag : ℚ × ℚ :=
        (ms'.mouse_drag_position.1 - ms'.mouse_normal_position.1,
         ms'.mouse_drag_position.2 - ms'.mouse_normal_position.2)
      let vp' :=
        { vp with
          viewport_ypr :=
            (lastYpr'.1 - drag.1 / 10, lastYpr'.2.1 - drag.2 / 10,
             vp.viewport_ypr.2.2)
          scale :=
            clampQ (vp.scale * (1 + inp.scroll_offset.2 / 600))
              (1 / 10000) 10000 }
      (vp', ms', lastYpr')

/-! ### Shader error handling (shader.h, part_000)

OpenGL is an oracle reporting the compile/link statuses and the
uniform/attribute locations the driver would return; `puts` + `exit(0)` is
modelled as `Except.error` carrying the printed diagnostic. -/

/-- Oracle for the GL driver results relevant to shader setup. -/
structure GLState where
  vcompile_ok : Bool
  fcompile_ok : Bool
  link_ok : Bool
  uniform_loc : String → Int
  attrib_loc : String → Int

/-- The cached location maps of the `Shader` class (part_000 lines 212-213). -/
structure Shader where
  uniforms : List (String × Int) := []
  attributes : List (String × Int) := []
deriving DecidableEq

/-- `Shader::Shader` (part_000 lines 88-121): compile the vertex shader and
check `GL_COMPILE_STATUS`, then the fragment shader, then link and check
`GL_LINK_STATUS`; each failure prints its diagnostic and exits. -/
def Shader.init (g : GLState) : Except String Shader :=
  if g.vcompile_ok then
    if g.fcompile_ok then
      if g.link_ok then .ok {}
      else .error "Error linking shader."
    else .error "Error compiling fragment shader."
  else .error "Error compiling vertex shader."

/-- `Shader::uniform` (part_000 lines 185-195): look up the cache, otherwise
query GL; a `-1` location prints a diagnostic and exits, otherwise the
location is cached and returned. -/
def Shader.uniform (g : GLState) (s : Shader) (name : String) :
    Except String (Int × Shader) :=
  match s.uniforms.lookup name with
  | some loc => .ok (loc, s)
  | none =>
    let loc := g.uniform_loc name
    if loc = -1 then .error "Error getting uniform location."
    else .ok (loc, { s with uniforms := (name, loc) :: s.uniforms })

/-- `Shader::attribute` (part_000 lines 197-207), same shape as `uniform`. -/
def Shader.attrib (g : GLState) (s : Shader) (name : String) :
    Except String (Int × Shader) :=
  match s.attributes.lookup name with
  | some loc => .ok (loc, s)
  | none =>
    let loc := g.attrib_loc name
    if loc = -1 then .error "Error getting attribute location."
    else .ok (loc, { s with attributes := (name, loc) :: s.attributes })

/-- The GUI-program part of `context_t` filled in by `create_window`. -/
structure NkShaderCtx where
  uniform_texture : Int
  uniform_projmat : Int
  attribute_position : Int
  attribute_texcoord : Int
  attribute_color : Int
deriving DecidableEq

/-- The shader setup inside `LightVis::create_window` (part_001 lines
779-795): it compiles both shaders, links the program and queries the five
locations, but — unlike `Shader::Shader` — never reads `GL_COMPILE_STATUS`
or `GL_LINK_STATUS` and never compares a location against `-1`; there is no
`puts`/`exit` on this path, so it succeeds for every oracle, recording
whatever locations the driver returned. -/
def create_window_gui_program (g : GLState) : Except String NkShaderCtx :=
  .ok
    { uniform_texture := g.uniform_loc "Texture"
      uniform_projmat := g.uniform_loc "ProjMat"
      attribute_position := g.attrib_loc "Position"
      attribute_texcoord := g.attrib_loc "TexCoord"
      attribute_color := g.attrib_loc "Color" }

/-- A driver oracle on which everything fails: both compiles and the link
report failure and every location lookup returns `-1`. -/
def glAllFail : GLState :=
  { vcompile_ok := false
    fcompile_ok := false
    link_ok := false
    uniform_loc := fun _ => -1
    attrib_loc := fun _ => -1 }

/-! ### Projection matrix (part_001 lines 102-110) -/

/-- `LightVisDetail::projection_matrix(f, near, far)` with the framebuffer
size `(w, h)` read from the viewport passed explicitly: a zero matrix with
the five entries the code assigns. -/
def projection_matrix (f near far : ℚ) (w h : ℤ) : Matrix (Fin 4) (Fin 4) ℚ :=
  Matrix.of fun i j =>
    if i = 0 ∧ j = 0 then 2 * (f * (h : ℚ)) / (w : ℚ)
    else if i = 1 ∧ j = 1 then -2 * f
    else if i = 2 ∧ j = 2 then (far + near) / (far - near)
    else if i = 2 ∧ j = 3 then 2 * far * near / (near - far)
    else if i = 3 ∧ j = 2 then 1
    else 0

/-! ### The process-wide window registry and the main loop
(part_001 lines 78-86, 364-402, 416-426, 729-741, 842-873)

LightVis objects and GLFW windows are identified by opaque handles (Nat).
`vises v` is object `v`'s `detail->context.window`; `spawn` is the
`glfwCreateWindow` oracle (the window handle creation would yield for `v`,
or `none` on failure); `shouldClose` is the `glfwWindowShouldClose` flag. -/

/-- The process-wide state the registry operations act on. -/
structure World where
  awaiting : List Nat
  active : List (Nat × Nat)
  vises : Nat → Option Nat
  shouldClose : Nat → Bool
  spawn : Nat → Option Nat

/-- `std::map::find`-style first lookup in the active-window assoc list. -/
def findWin : List (Nat × Nat) → Nat → Option Nat
  | [], _ => none
  | p :: rest, w => if p.1 = w then some p.2 else findWin rest w

/-- `active_windows().erase(w)`: drop the entry keyed `w`. -/
def eraseWin (l : List (Nat × Nat)) (w : Nat) : List (Nat × Nat) :=
  l.filter fun p => p.1 != w

/-- `std::set::insert`: add `v` unless it is already present. -/
def insertSet (v : Nat) (l : List Nat) : List Nat :=
  if v ∈ l then l else l ++ [v]

/-- Pointwise update of the object-to-window map. -/
def updateVis (f : Nat → Option Nat) (v : Nat) (w : Option Nat) :
    Nat → Option Nat :=
  fun u => if u = v then w else f u

/-- `LightVis::create_window` (part_001 lines 729-741, registry effect): if
`glfwCreateWindow` returns null the function returns at once; otherwise the
new window is stored in `context.window` and `active_windows()[window] =
this` inserts the pair. -/
def create_window (v : Nat) (g : World) : World :=
  match g.spawn v with
  | none => g
  | some w =>
    { g with active := (w, v) :: g.active, vises := updateVis g.vises v (some w) }

/-- `LightVis::destroy_window` (part_001 lines 842-873, registry effect):
`active_windows().erase(context.window)` runs first, then the `memset`
nulls `context.window`. -/
def destroy_window (v : Nat) (g : World) : World :=
  match g.vises v with
  | none => { g with vises := updateVis g.vises v none }
  | some w =>
    { g with active := eraseWin g.active w, vises := updateVis g.vises v none }

/-- `LightVis::show` (part_001 lines 416-420): insert into the awaiting set
only when the object has no window. -/
def show_window (v : Nat) (g : World) : World :=
  if g.vises v = none then { g with awaiting := insertSet v g.awaiting } else g

/-- `LightVis::hide` (part_001 lines 422-426): destroy the window only when
one exists; otherwise do nothing. -/
def hide_window (v : Nat) (g : World) : World :=
  match g.vises v with
  | some _ => destroy_window v g
  | none => g

/-- The registry invariant of claim C8: object `v` appears in
`active_windows()` under key `w` iff `v`'s `context.window` is exactly the
non-null handle `w`. -/
def registry_invariant (g : World) : Prop :=
  ∀ w v, findWin g.active w = some v ↔ g.vises v = some w

/-- Observable events of one main-loop iteration, in program order. -/
inductive Ev where
  | create (v : Nat)
  | poll
  | hideEv (v : Nat)
  | activate (v : Nat)
  | processEvents (v : Nat)
  | guiEv (v : Nat)
  | renderCanvas (v : Nat)
  | renderGui (v : Nat)
  | present (v : Nat)
deriving DecidableEq

/-- The per-window body of the handle-events block (part_001 lines 390-397):
`activate_context`, `process_events`, `gui`, `render_canvas`, `render_gui`,
`present`, in that order. -/
def frameEvents (v : Nat) : List Ev :=
  [.activate v, .processEvents v, .guiEv v, .renderCanvas v, .renderGui v, .present v]

/-- The spawn block (part_001 lines 368-373): `create_window` every
awaiting object, then clear the awaiting set. -/
def spawnPhase (g : World) : World :=
  { g.awaiting.foldl (fun h v => create_window v h) g with awaiting := [] }

/-- The close scan (part_001 lines 378-383): the objects whose GLFW window
is flagged to close. -/
def closingOf (g : World) : List Nat :=
  (g.active.filter fun p => g.shouldClose p.1).map Prod.snd

/-- The close block (part_001 lines 384-386): `hide` every flagged object. -/
def closePhase (g : World) : World :=
  (closingOf g).foldl (fun h v => hide_window v h) g

/-- One iteration of `LightVisDetail::main`'s while loop (part_001 lines
367-399), returning the next world state and the emitted event trace:
spawn awaiting windows and clear the set, poll once, hide the windows
flagged to close, then run the frame sequence for each remaining active
window. -/
def loopBody (g : World) : World × List Ev :=
  let s := g.awaiting.foldl
    (fun (p : World × List Ev) v => (create_window v p.1, p.2 ++ [Ev.create v]))
    (g, ([] : List Ev))
  let g1 : World := { s.1 with awaiting := [] }
  let closing := (g1.active.filter fun p => g1.shouldClose p.1).map Prod.snd
  let c := closing.foldl
    (fun (p : World × List Ev) v => (hide_window v p.1, p.2 ++ [Ev.hideEv v]))
    (g1, ([] : List Ev))
  let frames := c.1.active.foldl (fun tr p => tr ++ frameEvents p.2) ([] : List Ev)
  (c.1, s.2 ++ [Ev.poll] ++ c.2 ++ frames)

/-- `LightVisDetail::main` (part_001 lines 364-402) with explicit fuel:
while some window is active or awaiting, run the loop body; when neither
remains, `glfwTerminate` and return `EXIT_SUCCESS` (0). -/
def lightvisMain : Nat → World → Option Int
  | 0, _ => none
  | n + 1, g =>
    if g.active = [] ∧ g.awaiting = [] then some 0
    else lightvisMain n (loopBody g).1

/-- A world with no windows, no pending requests, and a failing spawn
oracle. -/
def world0 : World :=
  { awaiting := []
    active := []
    vises := fun _ => none
    shouldClose := fun _ => false
    spawn := fun _ => none }

/-! ### Camera model matrix (part_001 lines 112-142)

Angles are converted from degrees to radians with `M_PI / 180`; the Eigen
`AngleAxisf` factors about the unit axes are the standard axis rotation
matrices. -/

/-- Degrees to radians, `x * M_PI / 180`. -/
noncomputable def deg2rad (x : ℝ) : ℝ := x * Real.pi / 180

/-- `Eigen::AngleAxisf(θ, UnitX())` as a matrix. -/
noncomputable def rotX (θ : ℝ) : Matrix (Fin 3) (Fin 3) ℝ :=
  !![1, 0, 0;
     0, Real.cos θ, -Real.sin θ;
     0, Real.sin θ, Real.cos θ]

/-- `Eigen::AngleAxisf(θ, UnitY())` as a matrix. -/
noncomputable def rotY (θ : ℝ) : Matrix (Fin 3) (Fin 3) ℝ :=
  !![Real.cos θ, 0, Real.sin θ;
     0, 1, 0;
     -Real.sin θ, 0, Real.cos θ]

/-- `Eigen::AngleAxisf(θ, UnitZ())` as a matrix. -/
noncomputable def rotZ (θ : ℝ) : Matrix (Fin 3) (Fin 3) ℝ :=
  !![Real.cos θ, -Real.sin θ, 0;
     Real.sin θ, Real.cos θ, 0;
     0, 0, 1]

/-- The sequential build of `R` in `model_matrix` (part_001 lines 124-127):
start from the identity, then left-multiply by the roll, pitch and yaw
factors in turn. -/
noncomputable def modelR (ypr : Fin 3 → ℝ) : Matrix (Fin 3) (Fin 3) ℝ :=
  let R0 : Matrix (Fin 3) (Fin 3) ℝ := 1
  let R1 := rotY (deg2rad (ypr 2)) * R0
  let R2 := rotX (deg2rad (ypr 1)) * R1
  rotZ (deg2rad (ypr 0)) * R2

/-- The camera position `viewport_xyz` (part_001 lines 129-134): built from
the sines/cosines of the negated yaw and pitch, then scaled by the viewing
distance. -/
noncomputable def viewport_xyz (ypr : Fin 3 → ℝ) (dist : ℝ) : Fin 3 → ℝ :=
  fun i =>
    (![-(Real.sin (-(deg2rad (ypr 0)))) * Real.cos (-(deg2rad (ypr 1))),
       -(Real.cos (-(deg2rad (ypr 0)))) * Real.cos (-(deg2rad (ypr 1))),
       Real.sin (-(deg2rad (ypr 1)))] i) * dist

/-- `LightVisDetail::model_matrix` (part_001 lines 121-142): a zero 4×4
matrix whose upper-left 3×3 block is `R.transpose()`, whose last column's
top three entries are `-R.transpose() * viewport_xyz`, and whose `(3,3)`
entry is `1`. -/
noncomputable def model_matrix (ypr : Fin 3 → ℝ) (dist : ℝ) :
    Matrix (Fin 4) (Fin 4) ℝ :=
  let Rt := (modelR ypr).transpose
  let t := ((-(modelR ypr).transpose).mulVec (viewport_xyz ypr dist))
  !![Rt 0 0, Rt 0 1, Rt 0 2, t 0;
     Rt 1 0, Rt 1 1, Rt 1 2, t 1;
     Rt 2 0, Rt 2 1, Rt 2 2, t 2;
     0, 0, 0, 1]

/-! ### Grid generation (part_001 lines 209-279) -/

/-- The inclusive integer range `[lo, hi]` the C++ `for` loops walk. -/
def intRange (lo hi : ℤ) : List ℤ :=
  (List.range (hi + 1 - lo).toNat).map fun (i : ℕ) => lo + (i : ℤ)

/-- `LightVisDetail::gen_grid_level(level, grid_lines)` (part_001 lines
209-234), generic over the exact-arithmetic field modelling float/double:
`gap = 10^(-level) * scale`, the offsets are `location * scale`, the
output vector is cleared (`prev` is discarded) and for every integer in the
ceil/floor range of each in-plane axis one line — two endpoints — is
appended, x-lines first. -/
def gen_grid_level {K : Type} [LinearOrderedField K] [FloorRing K]
    (level : ℤ) (scale : K) (location : Fin 3 → K)
    (prev : List (K × K × K)) : List (K × K × K) :=
  let step : K := (10 : K) ^ (-level)
  let gap : K := step * scale
  let x0 : K := location 0 * scale
  let y0 : K := location 1 * scale
  let z0 : K := location 2 * scale
  let xlo : ℤ := ⌈(-10.5 + x0) / gap⌉
  let xhi : ℤ := ⌊(10.5 + x0) / gap⌋
  let ylo : ℤ := ⌈(-10.5 + y0) / gap⌉
  let yhi : ℤ := ⌊(10.5 + y0) / gap⌋
  ((intRange xlo xhi).flatMap fun x =>
      [((x : K) * gap - x0, (-10.5 : K), -z0),
       ((x : K) * gap - x0, (10.5 : K), -z0)])
    ++ ((intRange ylo yhi).flatMap fun y =>
      [((-10.5 : K), (y : K) * gap - y0, -z0),
       ((10.5 : K), (y : K) * gap - y0, -z0)])

/-- The draw commands `draw_grid` issues that involve grid geometry. -/
inductive GridCmd where
  | boundingBox (alpha : ℝ)
  | gridLevel (level : ℤ) (alpha : ℝ) (lines : List (ℝ × ℝ × ℝ))

/-- The level/alpha pair of a grid-level draw command. -/
def GridCmd.levelAlpha : GridCmd → Option (ℤ × ℝ)
  | .gridLevel l a _ => some (l, a)
  | _ => none

/-- The line batch of a grid-level draw command. -/
def GridCmd.linesOf : GridCmd → Option (List (ℝ × ℝ × ℝ))
  | .gridLevel _ _ ls => some ls
  | _ => none

/-- `LightVisDetail::draw_grid` (part_001 lines 236-279), geometry part:
draw the bounding box at alpha 0.25, then call `gen_grid_level` once with
`floor(level) - 1` (drawn at alpha 0.25) and once with `floor(level)`
(drawn at alpha `pow(level - floor(level), 0.9) * 0.25`), where
`level = log10(scale * 5)` and the static `grid_lines` vector (contents
`prev` from the previous frame) is reused across the two calls. -/
noncomputable def draw_grid (scale : ℝ) (location : Fin 3 → ℝ)
    (prev : List (ℝ × ℝ × ℝ)) : List GridCmd :=
  let level : ℝ := Real.logb 10 (scale * 5)
  let lines1 := gen_grid_level (⌊level⌋ - 1) scale location prev
  let lines2 := gen_grid_level ⌊level⌋ scale location lines1
  [GridCmd.boundingBox 0.25,
   GridCmd.gridLevel (⌊level⌋ - 1) 0.25 lines1,
   GridCmd.gridLevel ⌊level⌋ ((level - (⌊level⌋ : ℝ)) ^ (0.9 : ℝ) * 0.25) lines2]

/-- A driver oracle where only the vertex shader compiles. -/
def glVertexOnly : GLState :=
  { vcompile_ok := true
    fcompile_ok := false
    link_ok := false
    uniform_loc := fun _ => -1
    attrib_loc := fun _ => -1 }

/-- A driver oracle where both shaders compile but linking fails. -/
def glLinkFail : GLState :=
  { vcompile_ok := true
    fcompile_ok := true
    link_ok := false
    uniform_loc := fun _ => -1
    attrib_loc := fun _ => -1 }

/-- An empty world whose spawn oracle always yields window handle 7. -/
def worldSpawn7 : World :=
  { awaiting := []
    active := []
    vises := fun _ => none
    shouldClose := fun _ => false
    spawn := fun _ => some 7 }

/-! ### Helper lemmas -/

/-- `std::clamp` lands in `[lo, hi]` whenever `lo ≤ hi`. -/
theorem clampQ_mem {v lo hi : ℚ} (h : lo ≤ hi) :
    lo ≤ clampQ v lo hi ∧ clampQ v lo hi ≤ hi := by
  unfold clampQ
  split_ifs with h1 h2 <;> constructor <;> linarith

/-- Membership in the inclusive integer range of the C++ `for` loops. -/
theorem mem_intRange {lo hi k : ℤ} : k ∈ intRange lo hi ↔ lo ≤ k ∧ k ≤ hi := by
  unfold intRange
  rw [List.mem_map]
  constructor
  · rintro ⟨a, ha, rfl⟩
    rw [List.mem_range] at ha
    omega
  · intro h
    exact ⟨(k - lo).toNat, List.mem_range.mpr (by omega), by omega⟩

/-- A grid index taken from the ceil/floor range yields an in-plane
coordinate inside `[-10.5, 10.5]`. -/
theorem grid_coord_bounds {gap c0 : ℚ} (hgap : 0 < gap) {k : ℤ}
    (h1 : ⌈(-10.5 + c0) / gap⌉ ≤ k) (h2 : k ≤ ⌊(10.5 + c0) / gap⌋) :
    -10.5 ≤ (k : ℚ) * gap - c0 ∧ (k : ℚ) * gap - c0 ≤ 10.5 := by
  have ha : (-10.5 + c0) / gap ≤ (k : ℚ) := Int.ceil_le.mp h1
  have hb : (k : ℚ) ≤ (10.5 + c0) / gap := Int.le_floor.mp h2
  have ha' : -10.5 + c0 ≤ (k : ℚ) * gap := (div_le_iff₀ hgap).mp ha
  have hb' : (k : ℚ) * gap ≤ 10.5 + c0 := (le_div_iff₀ hgap).mp hb
  constructor <;> linarith

/-- Looking up the erased key fails. -/
theorem findWin_eraseWin_self (l : List (Nat × Nat)) (w : Nat) :
    findWin (eraseWin l w) w = none := by
  induction l with
  | nil => rfl
  | cons p rest ih =>
    obtain ⟨a, b⟩ := p
    by_cases h : a = w
    · simpa [eraseWin, List.filter_cons, h] using ih
    · simp only [eraseWin, List.filter_cons] at ih ⊢
      simp [h, findWin, ih]

/-- Erasing one key leaves lookups of other keys unchanged. -/
theorem findWin_eraseWin_ne (l : List (Nat × Nat)) {w w' : Nat} (hne : w' ≠ w) :
    findWin (eraseWin l w) w' = findWin l w' := by
  induction l with
  | nil => rfl
  | cons p rest ih =>
    obtain ⟨a, b⟩ := p
    by_cases h : a = w
    · subst h
      simp only [eraseWin, List.filter_cons] at ih ⊢
      simp [findWin, ih, Ne.symm hne]
    · by_cases hw' : a = w'
      · simp only [eraseWin, List.filter_cons] at ih ⊢
        simp [h, findWin, hw', hne]
      · simp only [eraseWin, List.filter_cons] at ih ⊢
        simp [h, findWin, hw', ih]

/-- The element just inserted is in the set. -/
theorem mem_insertSet_self (v : Nat) (l : List Nat) : v ∈ insertSet v l := by
  unfold insertSet
  split_ifs with h
  · exact h
  · simp

/-- `show` never touches the registry or the window pointers. -/
theorem show_window_active_vises (v : Nat) (g : World) :
    (show_window v g).active = g.active ∧ (show_window v g).vises = g.vises := by
  unfold show_window
  split_ifs <;> exact ⟨rfl, rfl⟩

/-- `show` never touches the spawn oracle or close flags either. -/
theorem show_window_spawn (v : Nat) (g : World) :
    (show_window v g).spawn = g.spawn ∧ (show_window v g).shouldClose = g.shouldClose := by
  unfold show_window
  split_ifs <;> exact ⟨rfl, rfl⟩

/-- `hide`/`destroy` never touch the awaiting set. -/
theorem hide_window_awaiting (v : Nat) (g : World) :
    (hide_window v g).awaiting = g.awaiting := by
  unfold hide_window destroy_window
  rcases g.vises v <;> rfl

/-- Folding `hide` over a list never touches the awaiting set. -/
theorem foldl_hide_awaiting (l : List Nat) (g : World) :
    (l.foldl (fun h v => hide_window v h) g).awaiting = g.awaiting := by
  induction l generalizing g with
  | nil => rfl
  | cons v rest ih => rw [List.foldl_cons, ih, hide_window_awaiting]

/-- Threading a trace through a fold of registry operations just appends
one event per processed element. -/
theorem foldl_op_trace (f : Nat → World → World) (e : Nat → Ev) (l : List Nat)
    (g : World) (acc : List Ev) :
    l.foldl (fun (p : World × List Ev) v => (f v p.1, p.2 ++ [e v])) (g, acc)
      = (l.foldl (fun h v => f v h) g, acc ++ l.map e) := by
  induction l generalizing g acc with
  | nil => simp
  | cons v rest ih => simp [ih]

/-- Folding the per-window frame trace is a flat concatenation. -/
theorem foldl_frames (l : List (Nat × Nat)) (acc : List Ev) :
    l.foldl (fun tr p => tr ++ frameEvents p.2) acc
      = acc ++ l.flatMap (fun p => frameEvents p.2) := by
  induction l generalizing acc with
  | nil => simp
  | cons p rest ih => simp [ih]

/-- The loop body decomposes into spawn, poll, close and frame phases. -/
theorem loopBody_eq (g : World) :
    loopBody g =
      (closePhase (spawnPhase g),
       g.awaiting.map Ev.create ++ [Ev.poll]
         ++ (closingOf (spawnPhase g)).map Ev.hideEv
         ++ (closePhase (spawnPhase g)).active.flatMap fun p => frameEvents p.2) := by
  simp only [loopBody, spawnPhase, closePhase, closingOf, foldl_op_trace, foldl_frames,
    List.nil_append]

/-! ### Claim theorems -/

/-- Claim C7: each of the four add_points / add_trajectory overloads appends
exactly one record to `position_records` — `is_trajectory` true exactly for
the trajectory overloads, the caller-owned data handle stored, and exactly
one of the single-color / per-point-colors fields set — and leaves every
other component of the visualizer's state (title, window context, camera
viewport, pending events, mouse states, existing records) unchanged. -/
theorem add_records_append_only :
    ∀ (d : VisDetail) (p c : Nat),
      (add_points_single_color d p c).position_records
          = d.position_records ++ [⟨false, p, some c, none⟩]
      ∧ (add_points_multi_colors d p c).position_records
          = d.position_records ++ [⟨false, p, none, some c⟩]
      ∧ (add_trajectory_single_color d p c).position_records
          = d.position_records ++ [⟨true, p, some c, none⟩]
      ∧ (add_trajectory_multi_colors d p c).position_records
          = d.position_records ++ [⟨true, p, none, some c⟩]
      ∧ { add_points_single_color d p c with
            position_records := d.position_records } = d
      ∧ { add_points_multi_colors d p c with
            position_records := d.position_records } = d
      ∧ { add_trajectory_single_color d p c with
            position_records := d.position_records } = d
      ∧ { add_trajectory_multi_colors d p c with
            position_records := d.position_records } = d :=
  fun _ _ _ => ⟨rfl, rfl, rfl, rfl, rfl, rfl, rfl, rfl⟩

/-- Claim C9: the camera scale starts at 1 and stays in `[1.0e-4, 1.0e4]`:
the only scale update in `process_events` multiplies by
`1 + scroll_y / 600` and clamps into that interval, and it runs only when
no GUI item is active and the subclass mouse handler returned false —
otherwise the scale is untouched. -/
theorem process_events_scale_invariant :
    viewport_init.scale = 1
    ∧ (1 / 10000 ≤ viewport_init.scale ∧ viewport_init.scale ≤ 10000)
    ∧ (∀ (inp : PEInput) (ms : MouseStatesQ) (ly : ℚ × ℚ × ℚ) (vp : Viewport),
        1 / 10000 ≤ vp.scale → vp.scale ≤ 10000 →
          1 / 10000 ≤ (process_events_view inp ms ly vp).1.scale
          ∧ (process_events_view inp ms ly vp).1.scale ≤ 10000)
    ∧ (∀ (inp : PEInput) (ms : MouseStatesQ) (ly : ℚ × ℚ × ℚ) (vp : Viewport),
        inp.item_active = true ∨ inp.mouse_handled = true →
          (process_events_view inp ms ly vp).1.scale = vp.scale)
    ∧ (∀ (inp : PEInput) (ms : MouseStatesQ) (ly : ℚ × ℚ × ℚ) (vp : Viewport),
        inp.item_active = false → inp.mouse_handled = false →
          (process_events_view inp ms ly vp).1.scale
            = clampQ (vp.scale * (1 + inp.scroll_offset.2 / 600))
                (1 / 10000) 10000) := by
  refine ⟨rfl, ⟨by norm_num [viewport_init], by norm_num [viewport_init]⟩, ?_, ?_, ?_⟩
  · intro inp ms ly vp _ _
    by_cases h1 : inp.item_active <;> by_cases h2 : inp.mouse_handled <;>
      simp only [process_events_view, h1, h2, if_true, if_false,
        Bool.false_eq_true, ite_false, ite_true] <;>
      first
        | exact ⟨by assumption, by assumption⟩
        | exact clampQ_mem (by norm_num)
  · intro inp ms ly vp h
    rcases h with h | h <;>
      by_cases h1 : inp.item_active <;> by_cases h2 : inp.mouse_handled <;>
      simp_all [process_events_view]
  · intro inp ms ly vp h1 h2
    simp [process_events_view, h1, h2]

/-- Claim C9 witness: the invariant instantiated at a concrete scroll-only
input on the default viewport. -/
theorem process_events_scale_invariant_witness :
    (1 / 10000 : ℚ) ≤ viewport_init.scale ∧ viewport_init.scale ≤ 10000
    ∧ (1 / 10000
        ≤ (process_events_view ⟨false, false, false, false, false, (0, 0), (0, -900)⟩
            {} (0, 0, 0) viewport_init).1.scale
      ∧ (process_events_view ⟨false, false, false, false, false, (0, 0), (0, -900)⟩
            {} (0, 0, 0) viewport_init).1.scale ≤ 10000) :=
  ⟨by norm_num [viewport_init], by norm_num [viewport_init],
    process_events_scale_invariant.2.2.1
      ⟨false, false, false, false, false, (0, 0), (0, -900)⟩ {} (0, 0, 0)
      viewport_init (by norm_num [viewport_init]) (by norm_num [viewport_init])⟩

/-- Claim C3: for nonzero framebuffer width and nonzero `far - near`, the
projection matrix has entry `(0,0) = 2 f h / w`, `(1,1) = -2 f`,
`(2,2) = (far + near) / (far - near)`, `(2,3) = 2 far near / (near - far)`,
`(3,2) = 1`, and every other entry is zero. -/
theorem projection_matrix_entries :
    ∀ (f near far : ℚ) (w h : ℤ), (w : ℚ) ≠ 0 → far - near ≠ 0 →
      projection_matrix f near far w h 0 0 = 2 * f * (h : ℚ) / (w : ℚ)
      ∧ projection_matrix f near far w h 1 1 = -2 * f
      ∧ projection_matrix f near far w h 2 2 = (far + near) / (far - near)
      ∧ projection_matrix f near far w h 2 3 = 2 * far * near / (near - far)
      ∧ projection_matrix f near far w h 3 2 = 1
      ∧ ∀ i j : Fin 4,
          ¬((i = 0 ∧ j = 0) ∨ (i = 1 ∧ j = 1) ∨ (i = 2 ∧ j = 2)
            ∨ (i = 2 ∧ j = 3) ∨ (i = 3 ∧ j = 2)) →
          projection_matrix f near far w h i j = 0 := by
  intro f near far w h _ _
  refine ⟨?_, ?_, ?_, ?_, ?_, ?_⟩
  · show (2 * (f * (h : ℚ)) / (w : ℚ)) = 2 * f * (h : ℚ) / (w : ℚ)
    ring
  · rfl
  · rfl
  · rfl
  · rfl
  · intro i j hij
    fin_cases i <;> fin_cases j <;> simp_all [projection_matrix]

/-- Claim C3 witness: the entries evaluated at `f = 1`, `near = 1/100`,
`far = 10000` on a 640×480 framebuffer. -/
theorem projection_matrix_entries_witness :
    ((640 : ℤ) : ℚ) ≠ 0 ∧ (10000 : ℚ) - 1 / 100 ≠ 0
    ∧ projection_matrix 1 (1 / 100) 10000 640 480 0 0
        = 2 * 1 * ((480 : ℤ) : ℚ) / ((640 : ℤ) : ℚ)
    ∧ projection_matrix 1 (1 / 100) 10000 640 480 3 2 = 1 :=
  ⟨by norm_num, by norm_num,
    (projection_matrix_entries 1 (1 / 100) 10000 640 480 (by norm_num)
      (by norm_num)).1,
    (projection_matrix_entries 1 (1 / 100) 10000 640 480 (by norm_num)
      (by norm_num)).2.2.2.2.1⟩

/-- Claim C1 counterexample: it is not the case that every shader compile
failure makes the program print a diagnostic and terminate — the GUI shader
program compiled inline by `LightVis::create_window` (part_001 lines
779-795) never checks `GL_COMPILE_STATUS`/`GL_LINK_STATUS` and never
compares a location with `-1`, so on a driver where everything fails it
still returns normally with no diagnostic. -/
theorem shader_failure_claim_counterexample :
    ¬ ∀ g : GLState, g.vcompile_ok = false →
        ∃ msg, create_window_gui_program g = Except.error msg := by
  intro hclaim
  obtain ⟨msg, hmsg⟩ := hclaim glAllFail rfl
  exact Except.noConfusion hmsg

/-- Claim C1 (amended): inside the `Shader` class every compile failure,
link failure and failed uniform/attribute location lookup prints its
diagnostic and terminates the process immediately; the GUI shader program
compiled inline in `LightVis::create_window`, however, performs no status
or location checks and always continues. -/
theorem shader_failures_terminate :
    (∀ g : GLState, g.vcompile_ok = false →
        Shader.init g = .error "Error compiling vertex shader.")
    ∧ (∀ g : GLState, g.vcompile_ok = true → g.fcompile_ok = false →
        Shader.init g = .error "Error compiling fragment shader.")
    ∧ (∀ g : GLState, g.vcompile_ok = true → g.fcompile_ok = true →
        g.link_ok = false → Shader.init g = .error "Error linking shader.")
    ∧ (∀ (g : GLState) (s : Shader) (name : String),
        s.uniforms.lookup name = none → g.uniform_loc name = -1 →
        Shader.uniform g s name = .error "Error getting uniform location.")
    ∧ (∀ (g : GLState) (s : Shader) (name : String),
        s.attributes.lookup name = none → g.attrib_loc name = -1 →
        Shader.attrib g s name = .error "Error getting attribute location.")
    ∧ (∀ g : GLState, ∃ ctx, create_window_gui_program g = .ok ctx) := by
  refine ⟨?_, ?_, ?_, ?_, ?_, ?_⟩
  · intro g hg
    simp [Shader.init, hg]
  · intro g hg1 hg2
    simp [Shader.init, hg1, hg2]
  · intro g hg1 hg2 hg3
    simp [Shader.init, hg1, hg2, hg3]
  · intro g s name h1 h2
    simp [Shader.uniform, h1, h2]
  · intro g s name h1 h2
    simp [Shader.attrib, h1, h2]
  · intro g
    exact ⟨_, rfl⟩

/-- Claim C1 witness: the amended behaviour evaluated on concrete failing
drivers: all three constructor checks fire with their messages, and a `-1`
uniform lookup on a fresh cache fires its message. -/
theorem shader_failures_terminate_witness :
    glAllFail.vcompile_ok = false
    ∧ Shader.init glAllFail = .error "Error compiling vertex shader."
    ∧ Shader.init glVertexOnly = .error "Error compiling fragment shader."
    ∧ Shader.init glLinkFail = .error "Error linking shader."
    ∧ Shader.uniform glAllFail {} "ProjMat"
        = .error "Error getting uniform location."
    ∧ Shader.attrib glAllFail {} "Position"
        = .error "Error getting attribute location." :=
  ⟨rfl,
    shader_failures_terminate.1 glAllFail rfl,
    shader_failures_terminate.2.1 glVertexOnly rfl rfl,
    shader_failures_terminate.2.2.1 glLinkFail rfl rfl rfl,
    shader_failures_terminate.2.2.2.1 glAllFail {} "ProjMat" rfl rfl,
    shader_failures_terminate.2.2.2.2.1 glAllFail {} "Position" rfl rfl⟩

/-- `create_window` preserves the registry invariant when the driver hands
back a window handle that is fresh (distinct from every live window, as
GLFW guarantees for a new `GLFWwindow*`) to an object that has none. -/
theorem inv_create_window {g : World} {v w : Nat} (hinv : registry_invariant g)
    (hsp : g.spawn v = some w) (hv : g.vises v = none)
    (hfresh : ∀ u, g.vises u ≠ some w) :
    registry_invariant (create_window v g) := by
  intro w' v'
  simp only [create_window, hsp, findWin, updateVis]
  split_ifs with h1 h2 h2
  · simp [h1, h2]
  · constructor
    · intro hEq
      exact absurd (Option.some.inj hEq).symm h2
    · intro hEq
      rw [h1] at hfresh
      exact absurd hEq (hfresh v')
  · subst h2
    constructor
    · intro hEq
      have := (hinv w' v').mp hEq
      rw [hv] at this
      exact Option.noConfusion this
    · intro hEq
      exact absurd (Option.some.inj hEq) h1
  · exact hinv w' v'

/-- `destroy_window` preserves the registry invariant. -/
theorem inv_destroy_window {g : World} (v : Nat)
    (hinv : registry_invariant g) :
    registry_invariant (destroy_window v g) := by
  intro w' v'
  cases hv : g.vises v with
  | none =>
    simp only [destroy_window, hv, updateVis]
    by_cases h : v' = v
    · rw [if_pos h]
      constructor
      · intro hEq
        have h2 := (hinv w' v').mp hEq
        rw [h, hv] at h2
        simp at h2
      · intro hEq
        simp at hEq
    · rw [if_neg h]
      exact hinv w' v'
  | some w =>
    simp only [destroy_window, hv, updateVis]
    by_cases hw : w' = w
    · rw [hw, findWin_eraseWin_self]
      by_cases h : v' = v
      · rw [if_pos h]
        simp
      · rw [if_neg h]
        constructor
        · intro hEq
          simp at hEq
        · intro hEq
          have h1 := (hinv w v').mpr hEq
          have h2 := (hinv w v).mpr hv
          rw [h1] at h2
          exact absurd (Option.some.inj h2) h
    · rw [findWin_eraseWin_ne _ hw]
      by_cases h : v' = v
      · rw [if_pos h]
        constructor
        · intro hEq
          have h2 := (hinv w' v').mp hEq
          rw [h, hv] at h2
          exact absurd (Option.some.inj h2) fun he => hw he.symm
        · intro hEq
          simp at hEq
      · rw [if_neg h]
        exact hinv w' v'

/-- `show` preserves the registry invariant (it only touches the awaiting
set). -/
theorem inv_show_window {g : World} (v : Nat)
    (hinv : registry_invariant g) :
    registry_invariant (show_window v g) := by
  intro w' v'
  obtain ⟨ha, hb⟩ := show_window_active_vises v g
  rw [ha, hb]
  exact hinv w' v'

/-- `hide` preserves the registry invariant. -/
theorem inv_hide_window {g : World} (v : Nat)
    (hinv : registry_invariant g) :
    registry_invariant (hide_window v g) := by
  unfold hide_window
  cases hv : g.vises v with
  | none => exact hinv
  | some w => exact inv_destroy_window v hinv

/-- Claim C8: the active-window registry invariant — an object is mapped
under key `w` iff its `context.window` is the non-null handle `w` — is
preserved by every operation the main loop reaches; `create_window` inserts
the pair only when window creation succeeds, and `destroy_window` erases
the entry keyed by the pre-`memset` window handle before nulling the
context. -/
theorem registry_invariant_preserved :
    (∀ (g : World) (v w : Nat), registry_invariant g → g.spawn v = some w →
        g.vises v = none → (∀ u, g.vises u ≠ some w) →
        registry_invariant (create_window v g))
    ∧ (∀ (g : World) (v : Nat), g.spawn v = none → create_window v g = g)
    ∧ (∀ (g : World) (v : Nat), registry_invariant g →
        registry_invariant (destroy_window v g))
    ∧ (∀ (g : World) (v : Nat), registry_invariant g →
        registry_invariant (show_window v g))
    ∧ (∀ (g : World) (v : Nat), registry_invariant g →
        registry_invariant (hide_window v g))
    ∧ (∀ (g : World) (v w : Nat), g.vises v = some w →
        (destroy_window v g).active = eraseWin g.active w
        ∧ (destroy_window v g).vises v = none) := by
  refine ⟨?_, ?_, ?_, ?_, ?_, ?_⟩
  · intro g v w hinv hsp hv hfresh
    exact inv_create_window hinv hsp hv hfresh
  · intro g v hsp
    simp [create_window, hsp]
  · intro g v hinv
    exact inv_destroy_window v hinv
  · intro g v hinv
    exact inv_show_window v hinv
  · intro g v hinv
    exact inv_hide_window v hinv
  · intro g v w hv
    refine ⟨?_, ?_⟩
    · simp [destroy_window, hv]
    · simp [destroy_window, hv, updateVis]

/-- Claim C8 witness: the invariant holds of the empty world and is kept by
a successful `create_window` there. -/
theorem registry_invariant_preserved_witness :
    registry_invariant worldSpawn7
    ∧ worldSpawn7.spawn 5 = some 7
    ∧ worldSpawn7.vises 5 = none
    ∧ registry_invariant (create_window 5 worldSpawn7) :=
  ⟨by intro w v; simp [worldSpawn7, findWin], rfl, rfl,
    registry_invariant_preserved.1 worldSpawn7 5 7
      (by intro w v; simp [worldSpawn7, findWin]) rfl rfl
      (by intro u; simp [worldSpawn7])⟩

/-- Claim C2: each main-loop iteration first creates every awaiting window
and clears the awaiting set, then polls once, then hides every window
flagged to close, then runs `activate_context`, `process_events`, `gui`,
`render_canvas`, `render_gui`, `present` in that order for each remaining
active window; the loop runs while some window is active or awaiting and
`main` returns `EXIT_SUCCESS` (0) once none remains. -/
theorem main_loop_structure :
    (∀ g : World,
        (loopBody g).2
          = g.awaiting.map Ev.create ++ [Ev.poll]
            ++ (closingOf (spawnPhase g)).map Ev.hideEv
            ++ (closePhase (spawnPhase g)).active.flatMap fun p => frameEvents p.2)
    ∧ (∀ g : World, (loopBody g).1 = closePhase (spawnPhase g))
    ∧ (∀ g : World, (loopBody g).1.awaiting = [])
    ∧ (∀ (n : Nat) (g : World), g.active = [] → g.awaiting = [] →
        lightvisMain (n + 1) g = some 0)
    ∧ (∀ (n : Nat) (g : World), ¬(g.active = [] ∧ g.awaiting = []) →
        lightvisMain (n + 1) g = lightvisMain n (loopBody g).1) := by
  refine ⟨?_, ?_, ?_, ?_, ?_⟩
  · intro g
    rw [loopBody_eq]
  · intro g
    rw [loopBody_eq]
  · intro g
    rw [loopBody_eq]
    show (closePhase (spawnPhase g)).awaiting = []
    unfold closePhase
    rw [foldl_hide_awaiting]
    rfl
  · intro n g h1 h2
    simp [lightvisMain, h1, h2]
  · intro n g h
    simp [lightvisMain, h]

/-- Claim C2 witness: on the empty world the loop condition fails at once
and `main` returns `EXIT_SUCCESS`. -/
theorem main_loop_structure_witness :
    world0.active = [] ∧ world0.awaiting = [] ∧ lightvisMain 1 world0 = some 0 :=
  ⟨rfl, rfl, main_loop_structure.2.2.2.1 0 world0 rfl rfl⟩

/-- Claim C10: `hide()` on an object without a window changes nothing (in
particular it does not remove the object from the awaiting set), so after
`show()` then `hide()` the object is still awaiting and the next loop
iteration still issues `create_window` for it; `hide()` destroys only when
`context.window` is non-null, and `show()` on an object that already has a
window changes nothing. -/
theorem show_then_hide_still_spawns :
    (∀ (g : World) (v : Nat), g.vises v = none → hide_window v g = g)
    ∧ (∀ (g : World) (v : Nat), g.vises v ≠ none → show_window v g = g)
    ∧ (∀ (g : World) (v w : Nat), g.vises v = some w →
        hide_window v g = destroy_window v g)
    ∧ (∀ (g : World) (v : Nat), g.vises v = none →
        hide_window v (show_window v g) = show_window v g
        ∧ v ∈ (hide_window v (show_window v g)).awaiting)
    ∧ (∀ (g : World) (v : Nat), g.vises v = none →
        Ev.create v ∈ (loopBody (hide_window v (show_window v g))).2) := by
  have hide_id : ∀ (g : World) (v : Nat), g.vises v = none → hide_window v g = g := by
    intro g v hv
    simp [hide_window, hv]
  have show_vises : ∀ (g : World) (v : Nat), (show_window v g).vises = g.vises :=
    fun g v => (show_window_active_vises v g).2
  have still_awaiting : ∀ (g : World) (v : Nat), g.vises v = none →
      hide_window v (show_window v g) = show_window v g
      ∧ v ∈ (hide_window v (show_window v g)).awaiting := by
    intro g v hv
    have hv' : (show_window v g).vises v = none := by rw [show_vises]; exact hv
    refine ⟨hide_id _ _ hv', ?_⟩
    rw [hide_id _ _ hv']
    simp only [show_window, hv, if_true]
    exact mem_insertSet_self v g.awaiting
  refine ⟨hide_id, ?_, ?_, still_awaiting, ?_⟩
  · intro g v hv
    simp [show_window, hv]
  · intro g v w hv
    simp [hide_window, hv, destroy_window]
  · intro g v hv
    rw [(still_awaiting g v hv).1, loopBody_eq]
    have hmem : v ∈ (show_window v g).awaiting := by
      simp only [show_window, hv, if_true]
      exact mem_insertSet_self v g.awaiting
    exact List.mem_append_left _ (List.mem_append_left _
      (List.mem_append_left _ (List.mem_map_of_mem Ev.create hmem)))

/-- Claim C10 witness: the show-then-hide scenario evaluated on the empty
world for object 0. -/
theorem show_then_hide_still_spawns_witness :
    world0.vises 0 = none
    ∧ hide_window 0 (show_window 0 world0) = show_window 0 world0
    ∧ 0 ∈ (hide_window 0 (show_window 0 world0)).awaiting
    ∧ Ev.create 0 ∈ (loopBody (hide_window 0 (show_window 0 world0))).2 :=
  ⟨rfl,
    (show_then_hide_still_spawns.2.2.2.1 world0 0 rfl).1,
    (show_then_hide_still_spawns.2.2.2.1 world0 0 rfl).2,
    show_then_hide_still_spawns.2.2.2.2 world0 0 rfl⟩

/-- The sequential rotation build equals the product `Rz · Rx · Ry`. -/
theorem modelR_eq (ypr : Fin 3 → ℝ) :
    modelR ypr
      = rotZ (deg2rad (ypr 0)) * rotX (deg2rad (ypr 1)) * rotY (deg2rad (ypr 2)) := by
  simp only [modelR, mul_one]
  rw [mul_assoc]

/-- Embedding index arithmetic: the third row/column of the 3×3 block sits
at index 2 of the 4×4 matrix. -/
theorem castSucc_two : Fin.castSucc (2 : Fin 3) = (2 : Fin 4) := rfl

/-- Claim C4: the model matrix's upper-left 3×3 block is the transpose of
`R = Rz(yaw) · Rx(pitch) · Ry(roll)` (angles converted to radians), its
translation column is `-Rᵀ · p` with camera position
`p = d · (-sin(-yaw) cos(-pitch), -cos(-yaw) cos(-pitch), sin(-pitch))`,
its `(3,3)` entry is 1 and the rest of the bottom row is 0. -/
theorem model_matrix_spec :
    ∀ (ypr : Fin 3 → ℝ) (dist : ℝ),
      (∀ i j : Fin 3,
        model_matrix ypr dist i.castSucc j.castSucc
          = (rotZ (deg2rad (ypr 0)) * rotX (deg2rad (ypr 1))
              * rotY (deg2rad (ypr 2))).transpose i j)
      ∧ (∀ i : Fin 3,
        model_matrix ypr dist i.castSucc 3
          = (-((rotZ (deg2rad (ypr 0)) * rotX (deg2rad (ypr 1))
              * rotY (deg2rad (ypr 2))).transpose.mulVec
                (viewport_xyz ypr dist))) i)
      ∧ model_matrix ypr dist 3 3 = 1
      ∧ (∀ j : Fin 3, model_matrix ypr dist 3 j.castSucc = 0)
      ∧ (∀ i : Fin 3, viewport_xyz ypr dist i
          = dist * ![-(Real.sin (-(deg2rad (ypr 0)))) * Real.cos (-(deg2rad (ypr 1))),
                     -(Real.cos (-(deg2rad (ypr 0)))) * Real.cos (-(deg2rad (ypr 1))),
                     Real.sin (-(deg2rad (ypr 1)))] i) := by
  intro ypr dist
  refine ⟨?_, ?_, ?_, ?_, ?_⟩
  · intro i j
    fin_cases i <;> fin_cases j <;>
      simp [model_matrix, modelR_eq, Matrix.transpose_apply, castSucc_two]
  · intro i
    fin_cases i <;>
      simp [model_matrix, modelR_eq, Matrix.neg_mulVec, castSucc_two]
  · simp [model_matrix]
  · intro j
    fin_cases j <;> simp [model_matrix, castSucc_two]
  · intro i
    fin_cases i <;> simp [viewport_xyz, mul_comm]

/-- Claim C5: for every positive scale, `draw_grid` generates grid lines at
exactly the two decade levels `floor(level) - 1` and `floor(level)` with
`level = log10(5 · scale)`, drawing the coarser level at constant alpha
0.25 and the finer one at `pow(level - floor(level), 0.9) * 0.25`; each
level's lines come from one (iterative, non-recursive) `gen_grid_level`
invocation, so exactly two grid-level batches are issued. -/
theorem draw_grid_two_levels :
    ∀ (scale : ℝ) (location : Fin 3 → ℝ) (prev : List (ℝ × ℝ × ℝ)),
      0 < scale →
      ((draw_grid scale location prev).filterMap GridCmd.levelAlpha
          = [(⌊Real.logb 10 (scale * 5)⌋ - 1, (0.25 : ℝ)),
             (⌊Real.logb 10 (scale * 5)⌋,
              (Real.logb 10 (scale * 5) - (⌊Real.logb 10 (scale * 5)⌋ : ℝ))
                ^ (0.9 : ℝ) * 0.25)])
      ∧ ((draw_grid scale location prev).filterMap GridCmd.linesOf
          = [gen_grid_level (⌊Real.logb 10 (scale * 5)⌋ - 1) scale location prev,
             gen_grid_level ⌊Real.logb 10 (scale * 5)⌋ scale location
               (gen_grid_level (⌊Real.logb 10 (scale * 5)⌋ - 1) scale location
                 prev)])
      ∧ ((draw_grid scale location prev).filterMap GridCmd.levelAlpha).length
          = 2 := by
  intro scale location prev _
  refine ⟨?_, ?_, ?_⟩ <;>
    simp [draw_grid, GridCmd.levelAlpha, GridCmd.linesOf]

/-- Claim C5 witness: at scale 2 the hypothesis holds and exactly two
grid-level batches are issued. -/
theorem draw_grid_two_levels_witness :
    (0 : ℝ) < 2
    ∧ ((draw_grid 2 (fun _ => 0) []).filterMap GridCmd.levelAlpha).length = 2 :=
  ⟨by norm_num, (draw_grid_two_levels 2 (fun _ => 0) [] (by norm_num)).2.2⟩

/-- Claim C6: `gen_grid_level` first clears the output vector (the result
is independent of the previous contents), then emits exactly one line —
two endpoints spanning the opposite coordinate from −10.5 to 10.5 at
height `-z0` — for each integer `k` with
`ceil((-10.5 + c0)/gap) ≤ k ≤ floor((10.5 + c0)/gap)` in each in-plane
axis `c`, where `gap = 10^(-level) · scale` and `(x0,y0,z0) = scale ·
location`; consequently every emitted in-plane coordinate `k·gap − c0`
lies within `[-10.5, 10.5]`. -/
theorem gen_grid_level_spec :
    ∀ (level : ℤ) (scale : ℚ) (location : Fin 3 → ℚ) (prev : List (ℚ × ℚ × ℚ)),
      0 < scale →
      (∀ prev', gen_grid_level level scale location prev'
          = gen_grid_level level scale location prev)
      ∧ gen_grid_level level scale location prev
          = ((intRange ⌈(-10.5 + location 0 * scale) / ((10 : ℚ) ^ (-level) * scale)⌉
                ⌊(10.5 + location 0 * scale) / ((10 : ℚ) ^ (-level) * scale)⌋).flatMap
              fun x =>
                [((x : ℚ) * ((10 : ℚ) ^ (-level) * scale) - location 0 * scale,
                    (-10.5 : ℚ), -(location 2 * scale)),
                 ((x : ℚ) * ((10 : ℚ) ^ (-level) * scale) - location 0 * scale,
                    (10.5 : ℚ), -(location 2 * scale))])
            ++ ((intRange ⌈(-10.5 + location 1 * scale) / ((10 : ℚ) ^ (-level) * scale)⌉
                ⌊(10.5 + location 1 * scale) / ((10 : ℚ) ^ (-level) * scale)⌋).flatMap
              fun y =>
                [((-10.5 : ℚ), (y : ℚ) * ((10 : ℚ) ^ (-level) * scale) - location 1 * scale,
                    -(location 2 * scale)),
                 ((10.5 : ℚ), (y : ℚ) * ((10 : ℚ) ^ (-level) * scale) - location 1 * scale,
                    -(location 2 * scale))])
      ∧ (∀ lo hi k : ℤ, k ∈ intRange lo hi ↔ lo ≤ k ∧ k ≤ hi)
      ∧ (∀ p ∈ gen_grid_level level scale location prev,
          (-10.5 ≤ p.1 ∧ p.1 ≤ 10.5) ∧ (-10.5 ≤ p.2.1 ∧ p.2.1 ≤ 10.5)) := by
  intro level scale location prev hscale
  have hstep : (0 : ℚ) < (10 : ℚ) ^ (-level) := by positivity
  have hgap : (0 : ℚ) < (10 : ℚ) ^ (-level) * scale := mul_pos hstep hscale
  refine ⟨fun _ => rfl, rfl, fun lo hi k => mem_intRange, ?_⟩
  intro p hp
  simp only [gen_grid_level, List.mem_append, List.mem_flatMap, List.mem_cons,
    List.mem_singleton, List.not_mem_nil, or_false] at hp
  rcases hp with ⟨x, hx, hpx⟩ | ⟨y, hy, hpy⟩
  · rw [mem_intRange] at hx
    have hb := grid_coord_bounds hgap hx.1 hx.2
    rcases hpx with rfl | rfl <;>
      exact ⟨⟨hb.1, hb.2⟩, by norm_num⟩
  · rw [mem_intRange] at hy
    have hb := grid_coord_bounds hgap hy.1 hy.2
    rcases hpy with rfl | rfl <;>
      exact ⟨by norm_num, hb.1, hb.2⟩

/-- Claim C6 witness: at level 0, scale 1, centred location, the result is
independent of the previous vector contents. -/
theorem gen_grid_level_spec_witness :
    (0 : ℚ) < 1
    ∧ gen_grid_level 0 (1 : ℚ) (fun _ => 0) [(99, 99, 99)]
        = gen_grid_level 0 (1 : ℚ) (fun _ => 0) [] :=
  ⟨by norm_num,
    (gen_grid_level_spec 0 1 (fun _ => 0) [] (by norm_num)).1 [(99, 99, 99)]⟩

end lightvis
